import Mathlib

/-!
Shallow embedding of the rouille HTTP façade (src/src/lib.rs) and proofs
about its data model: the `RouteError` taxonomy, the `Request` and
`Response` values exchanged with the transport, the `ResponseBody`
length bookkeeping, and the `start_server` serving loop.

Byte sequences are modelled as `List Nat` with every element a byte
value; Rust `String`s are Lean `String`s, converted to their UTF-8
bytes where the code operates on bytes.
-/

namespace Rouille

/-- Embeds `RouteError` (src/src/lib.rs:34-50): the convenience error
enum a route can return.  The source declares exactly five variants. -/
inductive RouteError where
  | NoRouteFound
  | WrongInput
  | LoginRequired
  | WrongLoginPassword
  | NotAuthorized
deriving DecidableEq, Repr, Fintype

/-- Embeds `SocketAddr` (std, used for `remote_addr`): an IPv4
address/port pair, which is all the code under test constructs. -/
structure SocketAddr where
  ip : Nat × Nat × Nat × Nat
  port : Nat
deriving DecidableEq, Repr

/-- The address `"127.0.0.1:12345".parse().unwrap()` used by the
address-less fake-request constructors (src/src/lib.rs:192,224). -/
def localhostAddr : SocketAddr := ⟨(127, 0, 0, 1), 12345⟩

/-- Embeds the `Request` struct (src/src/lib.rs:169-176).  `url` stores
the raw, still percent-encoded URL; `data` is the body byte sequence. -/
structure Request where
  method : String
  url : String
  headers : List (String × String)
  https : Bool
  data : List Nat
  remote_addr : SocketAddr
deriving DecidableEq, Repr

/-- Embeds `Request::fake_http` (src/src/lib.rs:183-194). -/
def Request.fake_http (method : String) (url : String)
    (headers : List (String × String)) (data : List Nat) : Request :=
  { url := url, method := method, https := false, data := data,
    headers := headers, remote_addr := localhostAddr }

/-- Embeds `Request::fake_http_from` (src/src/lib.rs:197-209). -/
def Request.fake_http_from (from' : SocketAddr) (method : String) (url : String)
    (headers : List (String × String)) (data : List Nat) : Request :=
  { url := url, method := method, https := false, data := data,
    headers := headers, remote_addr := from' }

/-- Embeds `Request::fake_https` (src/src/lib.rs:215-226). -/
def Request.fake_https (method : String) (url : String)
    (headers : List (String × String)) (data : List Nat) : Request :=
  { url := url, method := method, https := true, data := data,
    headers := headers, remote_addr := localhostAddr }

/-- Embeds `Request::fake_https_from` (src/src/lib.rs:229-241). -/
def Request.fake_https_from (from' : SocketAddr) (method : String) (url : String)
    (headers : List (String × String)) (data : List Nat) : Request :=
  { url := url, method := method, https := true, data := data,
    headers := headers, remote_addr := from' }

/-- Embeds `Request::secure` (src/src/lib.rs:245-247). -/
def Request.secure (r : Request) : Bool := r.https

/-- Embeds the accessor `Request::method` (src/src/lib.rs:251-253);
primed because the structure field of the same name is its body. -/
def Request.method' (r : Request) : String := r.method

/-- Embeds `Request::raw_url` (src/src/lib.rs:260-262): the stored URL,
not decoded. -/
def Request.raw_url (r : Request) : String := r.url

/-- Embeds the accessor `Request::data` (src/src/lib.rs:283-285), which
clones the stored body bytes; primed because of the field of the same
name. -/
def Request.data' (r : Request) : List Nat := r.data

/-- Embeds `Request::remote_addr` (src/src/lib.rs:289-291); primed
because of the field of the same name. -/
def Request.remote_addr' (r : Request) : SocketAddr := r.remote_addr

/-- Embeds `Request::header` (src/src/lib.rs:276-278): the value of the
first stored header pair whose name equals the key (Rust `k == key`,
an exact case-sensitive string comparison), `none` if there is none. -/
def Request.header (r : Request) (key : String) : Option String :=
  (r.headers.find? (fun p => p.1 == key)).map (fun p => p.2)

/-- UTF-8 encoding of one Unicode scalar value (Rust `str::as_bytes`
on a one-character string). -/
def utf8EncodeChar (c : Char) : List Nat :=
  let n := c.toNat
  if n < 128 then [n]
  else if n < 2048 then [192 + n / 64, 128 + n % 64]
  else if n < 65536 then [224 + n / 4096, 128 + (n / 64) % 64, 128 + n % 64]
  else [240 + n / 262144, 128 + (n / 4096) % 64, 128 + (n / 64) % 64, 128 + n % 64]

/-- The UTF-8 bytes of a string (Rust `String::as_bytes` /
`String::into_bytes`). -/
def utf8Encode (s : String) : List Nat :=
  (s.data.map utf8EncodeChar).flatten

/-- Embeds `from_hex` of the external `url` crate used by
`lossy_utf8_percent_decode`: the value of an ASCII hex digit byte. -/
def fromHex (b : Nat) : Option Nat :=
  if 48 ≤ b ∧ b ≤ 57 then some (b - 48)
  else if 65 ≤ b ∧ b ≤ 70 then some (b - 55)
  else if 97 ≤ b ∧ b ≤ 102 then some (b - 87)
  else none

/-- Embeds `url::percent_encoding::percent_decode`: a `%` followed by
two hex digit bytes becomes the decoded byte; any other byte (including
a `%` not followed by two hex digits) passes through unchanged.  A
decoded byte is not rescanned, so decoding happens exactly once. -/
def percentDecode : List Nat → List Nat
  | [] => []
  | b :: rest =>
    match rest with
    | h :: l :: rest2 =>
      if b = 37 then
        match fromHex h, fromHex l with
        | some hv, some lv => (hv * 16 + lv) :: percentDecode rest2
        | _, _ => b :: percentDecode (h :: l :: rest2)
      else b :: percentDecode (h :: l :: rest2)
    | short => b :: percentDecode short

/-- The Unicode replacement character U+FFFD. -/
def replacementChar : Char := Char.ofNat 0xFFFD

/-- Is the byte a UTF-8 continuation byte (`0x80..=0xBF`)? -/
def isCont (b : Nat) : Bool := 128 ≤ b && b ≤ 191

/-- Validity of the second byte of a multi-byte UTF-8 sequence given
its first byte, per the Rust core UTF-8 validation table. -/
def validSecond (b1 b2 : Nat) : Bool :=
  if b1 = 224 then 160 ≤ b2 && b2 ≤ 191
  else if b1 = 237 then 128 ≤ b2 && b2 ≤ 159
  else if b1 = 240 then 144 ≤ b2 && b2 ≤ 191
  else if b1 = 244 then 128 ≤ b2 && b2 ≤ 143
  else isCont b2

/-- Embeds Rust `String::from_utf8_lossy`: decode a byte sequence as
UTF-8, replacing each maximal invalid subpart with U+FFFD (an
incomplete sequence at the end of input yields a single U+FFFD). -/
def utf8Lossy : List Nat → List Char
  | [] => []
  | b1 :: rest =>
    if b1 < 128 then Char.ofNat b1 :: utf8Lossy rest
    else if 194 ≤ b1 ∧ b1 ≤ 223 then
      match rest with
      | [] => [replacementChar]
      | b2 :: rest2 =>
        if isCont b2 then
          Char.ofNat ((b1 - 192) * 64 + (b2 - 128)) :: utf8Lossy rest2
        else replacementChar :: utf8Lossy (b2 :: rest2)
    else if 224 ≤ b1 ∧ b1 ≤ 239 then
      match rest with
      | [] => [replacementChar]
      | b2 :: rest2 =>
        if validSecond b1 b2 then
          match rest2 with
          | [] => [replacementChar]
          | b3 :: rest3 =>
            if isCont b3 then
              Char.ofNat ((b1 - 224) * 4096 + (b2 - 128) * 64 + (b3 - 128)) ::
                utf8Lossy rest3
            else replacementChar :: utf8Lossy (b3 :: rest3)
        else replacementChar :: utf8Lossy (b2 :: rest2)
    else if 240 ≤ b1 ∧ b1 ≤ 244 then
      match rest with
      | [] => [replacementChar]
      | b2 :: rest2 =>
        if validSecond b1 b2 then
          match rest2 with
          | [] => [replacementChar]
          | b3 :: rest3 =>
            if isCont b3 then
              match rest3 with
              | [] => [replacementChar]
              | b4 :: rest4 =>
                if isCont b4 then
                  Char.ofNat ((b1 - 240) * 262144 + (b2 - 128) * 4096 +
                    (b3 - 128) * 64 + (b4 - 128)) :: utf8Lossy rest4
                else replacementChar :: utf8Lossy (b4 :: rest4)
            else replacementChar :: utf8Lossy (b3 :: rest3)
        else replacementChar :: utf8Lossy (b2 :: rest2)
    else replacementChar :: utf8Lossy rest

/-- Embeds `url::percent_encoding::lossy_utf8_percent_decode` as called
by `Request::url` (src/src/lib.rs:268-270): percent-decode the UTF-8
bytes of the input, then decode the result as UTF-8 with U+FFFD
replacing any non-unicode byte. -/
def lossyUtf8PercentDecode (s : String) : String :=
  ⟨utf8Lossy (percentDecode (utf8Encode s))⟩

/-- Embeds the accessor `Request::url` (src/src/lib.rs:268-270): the
stored URL with special characters decoded; primed because the
structure field `url` holds the raw string it reads. -/
def Request.url' (r : Request) : String :=
  lossyUtf8PercentDecode r.url

/-- Embeds `ResponseBody` (src/src/lib.rs:402-405).  The Rust `data`
field is a boxed reader; it is modelled by the byte sequence that
reader yields when read to the end. -/
structure ResponseBody where
  data : List Nat
  data_length : Option Nat
deriving DecidableEq, Repr

/-- Embeds `ResponseBody::empty` (src/src/lib.rs:410-415): an
`io::empty()` reader (yields no bytes) with known length 0. -/
def ResponseBody.empty : ResponseBody :=
  { data := [], data_length := some 0 }

/-- Embeds `ResponseBody::from_reader` (src/src/lib.rs:422-427); the
argument is the byte sequence the given reader yields.  The length is
not known in advance. -/
def ResponseBody.from_reader (data : List Nat) : ResponseBody :=
  { data := data, data_length := none }

/-- Embeds `ResponseBody::from_data` (src/src/lib.rs:431-439): a cursor
over the given bytes, with their count as the known length. -/
def ResponseBody.from_data (data : List Nat) : ResponseBody :=
  { data := data, data_length := some data.length }

/-- Embeds `ResponseBody::from_string` (src/src/lib.rs:454-456):
`from_data` on the UTF-8 bytes of the string. -/
def ResponseBody.from_string (s : String) : ResponseBody :=
  ResponseBody.from_data (utf8Encode s)

/-- Embeds the `Response` struct (src/src/lib.rs:296-309). -/
structure Response where
  status_code : Nat
  headers : List (String × String)
  data : ResponseBody
deriving DecidableEq, Repr

/-- Embeds `Response::from_error` (src/src/lib.rs:319-337): the default
response for each `RouteError` variant. -/
def Response.from_error (err : RouteError) : Response :=
  match err with
  | RouteError.NoRouteFound =>
    { status_code := 404, headers := [], data := ResponseBody.empty }
  | RouteError.WrongInput =>
    { status_code := 400, headers := [], data := ResponseBody.empty }
  | RouteError.LoginRequired =>
    { status_code := 401, headers := [], data := ResponseBody.empty }
  | RouteError.WrongLoginPassword =>
    { status_code := 401, headers := [], data := ResponseBody.empty }
  | RouteError.NotAuthorized =>
    { status_code := 403, headers := [], data := ResponseBody.empty }

/-- Embeds `Response::redirect` (src/src/lib.rs:341-347). -/
def Response.redirect (target : String) : Response :=
  { status_code := 303,
    headers := [("Location", target)],
    data := ResponseBody.empty }

/-- Embeds `Response::with_status_code` (src/src/lib.rs:395-398):
overwrite the status code, keep everything else. -/
def Response.with_status_code (r : Response) (code : Nat) : Response :=
  { r with status_code := code }

/-- An already-parsed request as delivered by the `tiny_http` transport
to the serving loop (src/src/lib.rs:129-141): method, raw URL, headers,
body bytes (after `read_to_end`), and the client address. -/
structure TinyRequest where
  method : String
  url : String
  headers : List (String × String)
  data : List Nat
  remote_addr : SocketAddr
deriving DecidableEq, Repr

/-- The response value handed back to the transport
(src/src/lib.rs:148-159): status, the headers that parsed, and the body
reader with its optional length. -/
structure TinyResponse where
  status_code : Nat
  headers : List (String × String)
  data : List Nat
  data_length : Option Nat
deriving DecidableEq, Repr

/-- Modelled from the spec: `tiny_http::Header::from_bytes` belongs to
the external transport collaborator, whose header wrapping spec §1
places out of scope; it is modelled as always parsing, so the loop at
src/src/lib.rs:151-157 keeps every header. -/
def tinyHeaderFromBytes (key value : String) : Option (String × String) :=
  some (key, value)

/-- The `Request` the loop builds from a transport request
(src/src/lib.rs:135-142): fields copied over, `https := false`. -/
def buildRouilleRequest (raw : TinyRequest) : Request :=
  { url := raw.url, method := raw.method, headers := raw.headers,
    https := false, data := raw.data, remote_addr := raw.remote_addr }

/-- The response-writing step of the loop (src/src/lib.rs:148-157):
a transport response with the handler response's status, the headers
that parse, and its body reader and length. -/
def writeResponse (resp : Response) : TinyResponse :=
  { status_code := resp.status_code,
    headers := resp.headers.filterMap (fun kv => tinyHeaderFromBytes kv.1 kv.2),
    data := resp.data.data,
    data_length := resp.data.data_length }

/-- A handler as invoked by the loop (src/src/lib.rs:145).  A handler
that raises an unrecoverable fault (a Rust panic) during execution is
modelled by `Except.error ()`; a normal return by `Except.ok`. -/
def Handler : Type := Request → Except Unit Response

/-- Embeds the serving loop of `start_server` (src/src/lib.rs:129-160)
over a finite prefix of the incoming requests: build the rouille
request, call the handler, write the response, continue with the next
request.  The handler call at line 145 is not wrapped in any fault
boundary, so a handler fault propagates out of the loop (`Except.error`
aborts the whole computation): no response is produced for the faulting
request and no later request is dispatched. -/
def start_server (handler : Handler) : List TinyRequest → Except Unit (List TinyResponse)
  | [] => Except.ok []
  | raw :: rest => do
    let rouille_request := buildRouilleRequest raw
    let rouille_response ← handler rouille_request
    let sent := writeResponse rouille_response
    let others ← start_server handler rest
    Except.ok (sent :: others)

/-- A handler that raises an unrecoverable fault on every request. -/
def panickingHandler : Handler := fun _ => Except.error ()

/-- A first concrete transport request. -/
def tinyGetRoot : TinyRequest :=
  { method := "GET", url := "/", headers := [], data := [],
    remote_addr := localhostAddr }

/-- A second concrete transport request. -/
def tinyGetFoo : TinyRequest :=
  { method := "GET", url := "/foo", headers := [], data := [],
    remote_addr := localhostAddr }

/-- `List.find?` returns the head of the first block whose element
satisfies the predicate when everything before it fails it. -/
theorem find?_of_prefix_fails {α : Type} (p : α → Bool) (a : α) (pre post : List α)
    (ha : p a = true) (hpre : ∀ x ∈ pre, p x = false) :
    (pre ++ a :: post).find? p = some a := by
  induction pre with
  | nil => simp [List.find?, ha]
  | cons x xs ih =>
    have hx : p x = false := hpre x (List.mem_cons_self x xs)
    simp only [List.cons_append, List.find?, hx]
    exact ih (fun y hy => hpre y (List.mem_cons_of_mem x hy))

/-- Claim C1 (code_bug evidence): the serving loop of `start_server`
has no fault boundary around the handler call, so with a handler that
raises an unrecoverable fault on every request and two queued requests
the whole loop aborts with the fault: no internal-error (500) response
is produced for the first request, and the second request is never
dispatched — contradicting the claim (and the doc comment at
src/src/lib.rs:119-121, which promises an automatic 500). -/
theorem start_server_panic_escapes_loop :
    start_server panickingHandler [tinyGetRoot, tinyGetFoo] = Except.error () ∧
    ∀ sent : List TinyResponse,
      start_server panickingHandler [tinyGetRoot, tinyGetFoo] ≠ Except.ok sent := by
  refine ⟨rfl, fun sent h => ?_⟩
  exact Except.noConfusion h

/-- Claim C3: `Response::from_error` is total on `RouteError` and maps
NoRouteFound to 404, WrongInput to 400, LoginRequired to 401,
WrongLoginPassword to 401, and NotAuthorized to 403. -/
theorem from_error_status_mapping :
    ∀ e : RouteError,
      (Response.from_error e).status_code =
        (match e with
         | RouteError.NoRouteFound => 404
         | RouteError.WrongInput => 400
         | RouteError.LoginRequired => 401
         | RouteError.WrongLoginPassword => 401
         | RouteError.NotAuthorized => 403) := by
  intro e
  cases e <;> rfl

/-- Claim C4 (counterexample): the claim that the route-error taxonomy
has six members (the five recoverable conditions plus HandlerFault) is
false for the source `RouteError` enum: no six pairwise-distinct
`RouteError` values exist. -/
theorem routeError_no_six_members :
    ¬ ∃ l : List RouteError, l.Nodup ∧ l.length = 6 := by
  rintro ⟨l, hnd, hlen⟩
  have hcard : Fintype.card RouteError = 5 := rfl
  have hle := hnd.length_le_card
  rw [hlen, hcard] at hle
  omega

/-- Claim C4 (amended): the route-error taxonomy comprises exactly the
five conditions NoRouteFound, WrongInput, LoginRequired,
WrongLoginPassword, NotAuthorized; handler faults are not represented
in the error type. -/
theorem routeError_exactly_five :
    (∀ e : RouteError,
      e = RouteError.NoRouteFound ∨ e = RouteError.WrongInput ∨
      e = RouteError.LoginRequired ∨ e = RouteError.WrongLoginPassword ∨
      e = RouteError.NotAuthorized) ∧
    ([RouteError.NoRouteFound, RouteError.WrongInput, RouteError.LoginRequired,
      RouteError.WrongLoginPassword, RouteError.NotAuthorized] : List RouteError).Nodup := by
  refine ⟨fun e => ?_, by decide⟩
  cases e <;> simp

/-- Claim C5: `Request::url` returns the stored raw URL with
percent-escapes decoded exactly once (a decoded byte is never
rescanned) and any non-unicode byte replaced by U+FFFD, while
`Request::raw_url` returns the stored raw URL unchanged; checked on
concrete inputs covering an ASCII escape, a multi-byte UTF-8 escape, a
non-unicode byte, and the non-rescanning of a decoded `%25`. -/
theorem url_percent_decoded_raw_url_unchanged :
    (∀ r : Request, r.url' = lossyUtf8PercentDecode r.url ∧ r.raw_url = r.url) ∧
    lossyUtf8PercentDecode "%41%20%E2%82%AC" = "A €" ∧
    lossyUtf8PercentDecode "/hello%20world" = "/hello world" ∧
    lossyUtf8PercentDecode "%FFabc" = "�abc" ∧
    lossyUtf8PercentDecode "%2541" = "%41" := by
  exact ⟨fun r => ⟨rfl, rfl⟩, by decide, by decide, by decide, by decide⟩

/-- Claim C6: the fake-request constructors preserve the transport
tuple exactly: method, raw URL, body bytes and header list are stored
unchanged and in order, `fake_http` yields an insecure request and
`fake_https` a secure one, and both address-less constructors set the
remote address to 127.0.0.1:12345. -/
theorem fake_request_preserves_transport_tuple :
    localhostAddr = ⟨(127, 0, 0, 1), 12345⟩ ∧
    ∀ (m u : String) (hs : List (String × String)) (d : List Nat),
      (Request.fake_http m u hs d).method' = m ∧
      (Request.fake_http m u hs d).raw_url = u ∧
      (Request.fake_http m u hs d).data' = d ∧
      (Request.fake_http m u hs d).headers = hs ∧
      (Request.fake_http m u hs d).secure = false ∧
      (Request.fake_http m u hs d).remote_addr' = localhostAddr ∧
      (Request.fake_https m u hs d).method' = m ∧
      (Request.fake_https m u hs d).raw_url = u ∧
      (Request.fake_https m u hs d).data' = d ∧
      (Request.fake_https m u hs d).headers = hs ∧
      (Request.fake_https m u hs d).secure = true ∧
      (Request.fake_https m u hs d).remote_addr' = localhostAddr := by
  exact ⟨rfl, fun m u hs d =>
    ⟨rfl, rfl, rfl, rfl, rfl, rfl, rfl, rfl, rfl, rfl, rfl, rfl⟩⟩

/-- Claim C7: the optional known length of a `ResponseBody` is accurate
whenever present: `empty` yields no bytes and reports length 0,
`from_data` and `from_string` report exactly the byte length of the
data they yield, and `from_reader` reports no known length. -/
theorem responseBody_length_accurate :
    ResponseBody.empty.data = [] ∧
    ResponseBody.empty.data_length = some 0 ∧
    (∀ d : List Nat, (ResponseBody.from_data d).data = d ∧
      (ResponseBody.from_data d).data_length = some d.length) ∧
    (∀ s : String, (ResponseBody.from_string s).data = utf8Encode s ∧
      (ResponseBody.from_string s).data_length = some (utf8Encode s).length) ∧
    (∀ d : List Nat, (ResponseBody.from_reader d).data_length = none) := by
  exact ⟨rfl, rfl, fun d => ⟨rfl, rfl⟩, fun s => ⟨rfl, rfl⟩, fun d => rfl⟩

/-- Claim C8: `Request::header` returns the value of the first stored
header pair (in order) whose name equals the key under exact,
case-sensitive string comparison, and `none` when no stored pair's
name equals the key. -/
theorem header_first_case_sensitive_match (r : Request) (key : String) :
    (r.header key = none ↔ ∀ p ∈ r.headers, p.1 ≠ key) ∧
    (∀ (v : String) (pre post : List (String × String)),
      r.headers = pre ++ (key, v) :: post →
      (∀ p ∈ pre, p.1 ≠ key) →
      r.header key = some v) := by
  constructor
  · unfold Request.header
    rw [Option.map_eq_none', List.find?_eq_none]
    simp
  · intro v pre post hsplit hpre
    unfold Request.header
    rw [hsplit]
    rw [find?_of_prefix_fails (fun p => p.1 == key) (key, v) pre post (by simp)
        (fun x hx => by simpa using hpre x hx)]
    rfl

/-- Witness for claim C8 at concrete inputs: the first of two
same-named headers wins, a pair differing only in case is skipped, and
a missing name yields `none`. -/
theorem header_first_case_sensitive_match_witness :
    (Request.fake_http "GET" "/" [("Host", "x"), ("a", "0"), ("A", "1"), ("A", "2")] []).header "A"
      = some "1" ∧
    (Request.fake_http "GET" "/" [("Host", "x")] []).header "Accept" = none :=
  ⟨(header_first_case_sensitive_match _ "A").2 "1" [("Host", "x"), ("a", "0")]
      [("A", "2")] rfl (by decide),
    (header_first_case_sensitive_match _ "Accept").1.mpr (by decide)⟩

/-- Claim C9: `Response::with_status_code` replaces the status code and
leaves the headers and the body untouched. -/
theorem with_status_code_frame :
    ∀ (r : Response) (c : Nat),
      (r.with_status_code c).status_code = c ∧
      (r.with_status_code c).headers = r.headers ∧
      (r.with_status_code c).data = r.data := by
  exact fun r c => ⟨rfl, rfl, rfl⟩

/-- Claim C10: `Response::redirect` builds a response with status 303,
exactly the single header pair (Location, target), and an empty body of
known length 0. -/
theorem redirect_shape :
    ∀ target : String,
      (Response.redirect target).status_code = 303 ∧
      (Response.redirect target).headers = [("Location", target)] ∧
      (Response.redirect target).data.data = [] ∧
      (Response.redirect target).data.data_length = some 0 := by
  exact fun t => ⟨rfl, rfl, rfl, rfl⟩

end Rouille
